import Mathlib

/-!
Verification of the REST client-stub generator of `panyam/relay`
(`src/bindings/rest/generator.go`) against its natural-language
specification.  The Go code is shallowly embedded: the dynamically typed
`bindings.Type` tree becomes the inductive `Ty`, Go panics become the
`GoPanic` error type carried in `Except`, and incremental writes to the
`io.Writer` become an accumulated output `String` that survives a panic.
-/

/-- The `bindings.Type` tree.  In the Go source `Type.TypeData` is an
`interface\x7b\x7d` holding one of: a `string` (primitive name),
`*AliasTypeData`, `*ReferenceTypeData`, `*RecordTypeData`,
`*TupleTypeData`, `*MapTypeData`, `*ListTypeData` or `*FunctionTypeData`.
Here that open union is the closed variant set of the data model
(`aliasType`/`referenceType` stand for the Alias/Reference variants;
`alias` itself is a reserved word in Lean). -/
inductive Ty where
  | primitive (name : String)
  | aliasType (name : String) (aliasFor : Ty)
  | referenceType (name : String) (targetType : Ty)
  | record (name : String) (fields : List (String × Ty))
  | tuple (children : List Ty)
  | map (keyType : Ty) (valueType : Ty)
  | list (elemType : Ty)
  | function (inputTypes : List Ty) (outputTypes : List Ty)
deriving Repr

/-- A Go panic, as raised by `panic(errors.New(msg))` or by a runtime
fault (nil dereference, failed interface type assertion). -/
inductive GoPanic where
  | unsupported (msg : String)
  | nilDeref
  | interfaceConversion
deriving Repr, DecidableEq

/-- A Go `error` value returned normally (through the `error` result). -/
inductive GoError where
  | unknownType
  | notARecord
  | other (msg : String)
deriving Repr, DecidableEq

/-- `WriterMethodForType` (generator.go:156-177): type-switch on
`t.TypeData`.  The `panic` branches for function and tuple types become
`Except.error`; the trailing `return "UnknownWriter"` of the Go source is
unreachable for values of the closed variant set and hence has no
counterpart on the inductive `Ty`. -/
def WriterMethodForType : Ty → Except GoPanic String
  | .primitive name => .ok ("Write_" ++ name)
  | .aliasType _ aliasFor => WriterMethodForType aliasFor
  | .referenceType _ targetType => WriterMethodForType targetType
  | .function _ _ => .error (.unsupported "Function types not supported in GO")
  | .tuple _ => .error (.unsupported "Warning: Tuple types not supported in GO")
  | .record name _ => .ok ("Write_" ++ name)
  | .map _ _ => .ok "Write_Map"
  | .list _ => .ok "Write_List"

/-- The resolution step `WriterMethodForType` performs implicitly: strip
alias/reference wrappers down to the first non-wrapper variant. -/
def resolve : Ty → Ty
  | .aliasType _ aliasFor => resolve aliasFor
  | .referenceType _ targetType => resolve targetType
  | t => t

/-- The dispatch outcome the spec assigns to each resolved variant. -/
def dispatchSpec (t : Ty) : Except GoPanic String → Prop :=
  match resolve t with
  | .primitive n => fun r => r = .ok ("Write_" ++ n)
  | .record n _ => fun r => r = .ok ("Write_" ++ n)
  | .map _ _ => fun r => r = .ok "Write_Map"
  | .list _ => fun r => r = .ok "Write_List"
  | .tuple _ => fun r => r = .error (.unsupported "Warning: Tuple types not supported in GO")
  | .function _ _ => fun r => r = .error (.unsupported "Function types not supported in GO")
  | .aliasType _ _ => fun _ => False
  | .referenceType _ _ => fun _ => False

/-- Modelled from the spec: `bindings.Type.Signature()` (called at
generator.go:46) is defined in the `bindings` package, which is not under
src/.  The spec fixes only that an argument renders as its target-language
type signature, primitives rendering by their canonical name. -/
def Signature : Ty → String
  | .primitive n => n
  | .aliasType n _ => n
  | .referenceType n _ => "*" ++ n
  | .record n _ => "*" ++ n
  | .map k v => "map[" ++ Signature k ++ "]" ++ Signature v
  | .list e => "[]" ++ Signature e
  | .tuple _ => "Tuple"
  | .function _ _ => "Func"

/-- `bindings.FunctionTypeData`: input and output types of an operation. -/
structure FunctionTypeData where
  InputTypes : List Ty
  OutputTypes : List Ty

def FunctionTypeData.NumInputs (f : FunctionTypeData) : Nat := f.InputTypes.length

def FunctionTypeData.NumOutputs (f : FunctionTypeData) : Nat := f.OutputTypes.length

/-- `bindings.RecordTypeData`: a named structure (possibly a service). -/
structure RecordTypeData where
  Name : String
  Fields : List (String × Ty)

/-- Modelled from the spec: the `HttpBinding` struct of the rest package
is not under src/ (generator.go only declares `map[string]*HttpBinding`
fields); the spec gives `\x7bmethod, endpointTemplate, parameterPlacement\x7d`. -/
inductive ParameterPlacement where
  | path
  | query
  | body
deriving Repr, DecidableEq

/-- Modelled from the spec: per-operation transport metadata (see
`ParameterPlacement` above for provenance). -/
structure HttpBinding where
  Method : String
  EndpointTemplate : String
  Placement : ParameterPlacement
deriving Repr, DecidableEq

/-- `ArgListMaker` (generator.go:37-49): the loop body appends a comma
separator after the first element, then `argN ` when `withNames`, then
the parameter's signature.  `index` threads the loop counter. -/
def argListFrom : List Ty → Nat → Bool → String
  | [], _, _ => ""
  | param :: rest, index, withNames =>
      (if index > 0 then ", " else "") ++
        (if withNames then "arg" ++ toString index ++ " " else "") ++
        Signature param ++ argListFrom rest (index + 1) withNames

def ArgListMaker (paramTypes : List Ty) (withNames : Bool) : String :=
  argListFrom paramTypes 0 withNames

/-- The `Generator` struct (generator.go:15-35).  Go maps become
association lists; the `ITypeSystem` interface value becomes its registry
contents; nilable pointers become `Option`. -/
structure Generator where
  Bindings : List (String × HttpBinding)
  TypeSystem : List ((String × String) × Ty)
  TemplatesDir : String
  Package : String
  ClientPackageName : String
  ServiceName : String
  ClientPrefix : String
  ClientSuffix : String
  httpBindings : List (String × HttpBinding)
  ArgListMaker : List Ty → Bool → String
  ServiceType : Option RecordTypeData
  TransportRequest : String
  OpName : String
  OpType : Option FunctionTypeData
  OpMethod : String
  OpEndpoint : String

/-- `Generator.ClientName` (generator.go:51-53). -/
def ClientName (g : Generator) : String :=
  g.ClientPrefix ++ g.ServiceName ++ g.ClientSuffix

/-- `NewGenerator` (generator.go:55-68): unset fields keep Go zero
values. -/
def NewGenerator (bindingsMap : List (String × HttpBinding))
    (typeSys : List ((String × String) × Ty)) (templatesDir : String) : Generator :=
  { Bindings := bindingsMap
    TypeSystem := typeSys
    TemplatesDir := templatesDir
    Package := ""
    ClientPackageName := "restclient"
    ServiceName := ""
    ClientPrefix := ""
    ClientSuffix := "Client"
    httpBindings := []
    ArgListMaker := ArgListMaker
    ServiceType := none
    TransportRequest := "*http.Request"
    OpName := ""
    OpType := none
    OpMethod := ""
    OpEndpoint := "" }

/-- Modelled from the spec: `ITypeSystem.GetType` lives in the `bindings`
package, not under src/.  Lookup is by (namespace, name); an absent pair
fails — here `none`, which the generator then dereferences. -/
def GetType (typeSys : List ((String × String) × Ty)) (pkgName name : String) : Option Ty :=
  (typeSys.find? (fun e => e.1.1 == pkgName && e.1.2 == name)).map (fun e => e.2)

/-- Modelled from the spec: the template file `client.gen` is read from
`TemplatesDir` and is not under src/; the spec fixes only that it renders
a class header whose name is `prefix + serviceName + suffix`. -/
def clientGenRender (g : Generator) : String :=
  "type " ++ ClientName g ++ " struct \x7b\x7d\n"

/-- `Generator.EmitClientClass` (generator.go:73-86).  The source does
`g.TypeSystem.GetType(pkgName, serviceName).TypeData.(*bindings.RecordTypeData)`
with no comma-ok form: a missing type yields a nil-pointer dereference
panic, a non-record type a failed interface type assertion panic.  On
success the template renders (to stdout) and the function returns the nil
`err`.  The updated generator is returned for sequencing. -/
def EmitClientClass (g : Generator) (pkgName serviceName : String) :
    Except GoPanic (Generator × String × Option GoError) :=
  let g1 := { g with ServiceName := serviceName }
  match GetType g1.TypeSystem pkgName serviceName with
  | none => .error .nilDeref
  | some (.record n fields) =>
      let g2 := { g1 with ServiceType := some { Name := n, Fields := fields } }
      .ok (g2, clientGenRender g2, none)
  | some _ => .error .interfaceConversion

/-- The field updates EmitSendRequestMethod performs on its receiver
(generator.go:96-99). -/
def Generator.withOp (g : Generator) (opName : String) (opType : FunctionTypeData) : Generator :=
  { g with OpName := opName, OpType := some opType,
           OpMethod := "GET", OpEndpoint := "http://hello.world/" }

/-- The text `StartWritingMethod` renders once `withOp` has been applied:
header of the method `Send<opName>Request`. -/
def methodHeaderText (g : Generator) (opName : String) (opType : FunctionTypeData) : String :=
  "\nfunc (svc *" ++ ClientName g ++ ") Send" ++ opName ++ "Request(" ++
    g.ArgListMaker opType.InputTypes true ++
    ") (resp *http.Response, error) \x7b\n\tbody := bytes.NewBuffer(nil)\n\t"

/-- The request-construction text `EndWritingMethod` renders, as a
function of the interpolated HTTP method and endpoint. -/
def requestConstructionText (method endpoint : String) : String :=
  "\n\thttpreq, err := http.NewRequest(\"" ++ method ++ "\", \"" ++ endpoint ++
    "\", body)\n\tif err != nil \x7b\n\t\treturn nil, err\n\t\x7d\n\thttpreq.Header.Add(\"Content-Type\", \"application/json\")\n\tif svc.RequestDecorator != nil \x7b\n\t\thttpreq, err = svc.RequestDecorator(httpreq)\n\t\tif err != nil \x7b return nil, err \x7d\n\t\x7d\n\tc := http.Client\x7b\x7d\n\treturn c.Do(httpreq)\n\x7d\n\t"

/-- `Generator.StartWritingMethod` (generator.go:116-129): renders the
inline template
`func (svc *ClientName) SendOpNameRequest(args) (resp *http.Response, error) \x7b body := ... `
interpolating `ClientName`, `OpName` and `ArgListMaker OpType.InputTypes true`
from the generator.  A nil `OpType` would make template execution fail
and the source then panics. -/
def StartWritingMethod (g : Generator) (opName : String) (opType : FunctionTypeData)
    (argPrefix : String) : Except GoPanic String :=
  match g.OpType with
  | none => .error .nilDeref
  | some ft =>
      .ok ("\nfunc (svc *" ++ ClientName g ++ ") Send" ++ g.OpName ++ "Request(" ++
        g.ArgListMaker ft.InputTypes true ++
        ") (resp *http.Response, error) \x7b\n\tbody := bytes.NewBuffer(nil)\n\t")

/-- `Generator.EndWritingMethod` (generator.go:131-154): renders the
request-construction template, interpolating `OpMethod` and `OpEndpoint`. -/
def EndWritingMethod (g : Generator) (opName : String) (opType : FunctionTypeData) : String :=
  requestConstructionText g.OpMethod g.OpEndpoint

/-- `Generator.StartWritingList` (generator.go:192-194): writes `[`. -/
def StartWritingList : String := "["

/-- `Generator.EndWritingList` (generator.go:199-201): writes `]`. -/
def EndWritingList : String := "]"

/-- `Generator.EmitObjectWriterCall` (generator.go:183-187): writes
`callString(body, argName)` where `callString` comes from
`WriterMethodForType`, whose panic propagates.  `key` is the unused
`interface\x7b\x7d` parameter. -/
def EmitObjectWriterCall (key : Option Nat) (argName : String) (argType : Ty) :
    Except GoPanic String :=
  (WriterMethodForType argType).map (fun callString => callString ++ "(body, " ++ argName ++ ")")

/-- The `for index, param := range opType.InputTypes` loop of
`EmitSendRequestMethod` (generator.go:106-108): text written so far is
kept when a writer-call panics mid-loop. -/
def emitArgList : List Ty → Nat → String × Option GoPanic
  | [], _ => ("", none)
  | param :: rest, index =>
      match EmitObjectWriterCall (some index) ("arg" ++ toString index) param with
      | .error p => ("", some p)
      | .ok call =>
          match emitArgList rest (index + 1) with
          | (restOut, res) => (call ++ restOut, res)

/-- `Generator.EmitSendRequestMethod` (generator.go:95-114): sets
`OpName`, `OpType` and the hardcoded `OpMethod = "GET"`,
`OpEndpoint = "http://hello.world/"`, writes the method header, then
branches on the input count (none / exactly one / several, the latter
bracketed), then writes the request-construction footer and returns the
nil `err`.  The first component is everything written to `output`
(preserved when a panic aborts the method mid-way), the second the
panic-or-returned-error outcome. -/
def EmitSendRequestMethod (g : Generator) (opName : String) (opType : FunctionTypeData)
    (argPrefix : String) : String × Except GoPanic (Option GoError) :=
  let g' := Generator.withOp g opName opType
  match StartWritingMethod g' opName opType argPrefix with
  | .error p => ("", .error p)
  | .ok hdr =>
    match opType.InputTypes with
    | [] => (hdr ++ EndWritingMethod g' opName opType, .ok none)
    | [t0] =>
        match EmitObjectWriterCall none "arg0" t0 with
        | .error p => (hdr, .error p)
        | .ok call => (hdr ++ call ++ EndWritingMethod g' opName opType, .ok none)
    | _ :: _ :: _ =>
        match emitArgList opType.InputTypes 0 with
        | (calls, some p) => (hdr ++ StartWritingList ++ calls, .error p)
        | (calls, none) =>
            (hdr ++ StartWritingList ++ calls ++ EndWritingList ++
              EndWritingMethod g' opName opType, .ok none)

/-- Claim-side text of one writer call for the argument at `index`
(defined to compare the emitted output against the claim's reading
`WriterNameFor(inputTypes[i])(body, argI)`). -/
def writerCallText (index : Nat) (t : Ty) : String :=
  ((WriterMethodForType t).toOption.getD "") ++ "(body, " ++ ("arg" ++ toString index) ++ ")"

/-- Claim-side concatenation of writer calls, one per input type, indexed
in declared order starting at `index`. -/
def joinCallsFrom : Nat → List Ty → String
  | _, [] => ""
  | index, t :: rest => writerCallText index t ++ joinCallsFrom (index + 1) rest

/-- Claim-side writer-call section: empty for 0 inputs, a single call
for 1 input, and the bracket-delimited calls in declared order for more. -/
def specWriterCallSection (inputTypes : List Ty) : String :=
  match inputTypes with
  | [] => ""
  | [t0] => writerCallText 0 t0
  | _ => StartWritingList ++ joinCallsFrom 0 inputTypes ++ EndWritingList

/-- Claim-side single entry of the rendered argument list. -/
def argEntry (withNames : Bool) (index : Nat) (t : Ty) : String :=
  (if withNames then "arg" ++ toString index ++ " " else "") ++ Signature t

/-- Claim-side argument list: per-element entries comma-joined in order. -/
def commaJoinedFrom (withNames : Bool) : Nat → List Ty → String
  | _, [] => ""
  | index, [t] => argEntry withNames index t
  | index, t :: rest => argEntry withNames index t ++ ", " ++ commaJoinedFrom withNames (index + 1) rest

/-- Count of occurrences of `pat` in a character list (number of starting
positions at which `pat` is a prefix of the corresponding suffix). -/
def countPrefixOccs (pat : List Char) : List Char → Nat
  | [] => if pat.isPrefixOf ([] : List Char) then 1 else 0
  | c :: rest => (if pat.isPrefixOf (c :: rest) then 1 else 0) + countPrefixOccs pat rest

/-- Count of occurrences of the pattern string in `s`. -/
def countSubstr (pat s : String) : Nat := countPrefixOccs pat.data s.data

/-- Pointer-graph presentation of `bindings.Type` for the cycle question:
alias/reference children are heap addresses rather than subtrees, so the
cyclic pointer structures constructible in Go are representable.
Non-wrapper payloads carry only their dispatch data. -/
inductive TyNode where
  | primitive (name : String)
  | aliasPtr (name : String) (aliasFor : Nat)
  | referencePtr (name : String) (targetType : Nat)
  | recordNode (name : String)
  | tupleNode
  | mapNode
  | listNode
  | functionNode
deriving Repr, DecidableEq

/-- Outcome of running the unguarded recursion of `WriterMethodForType`
on the pointer graph with a bounded call stack. -/
inductive WriterOutcome where
  | name (s : String)
  | panicked (p : GoPanic)
  | stackOverflow
deriving Repr, DecidableEq

/-- `WriterMethodForType` (generator.go:156-177) transcribed onto the
pointer graph: the alias/reference cases recurse on the pointed-to node
with no cycle guard (generator.go:160-163); `fuel` bounds the call stack,
`.stackOverflow` standing for a recursion that has not returned within
that bound.  Dereferencing an address outside the heap is the nil
dereference of a nil `*Type`. -/
def WriterMethodForTypeG (heap : List TyNode) : Nat → Nat → WriterOutcome
  | 0, _ => .stackOverflow
  | fuel + 1, addr =>
      match heap.get? addr with
      | none => .panicked .nilDeref
      | some (.primitive n) => .name ("Write_" ++ n)
      | some (.aliasPtr _ aliasFor) => WriterMethodForTypeG heap fuel aliasFor
      | some (.referencePtr _ targetType) => WriterMethodForTypeG heap fuel targetType
      | some .functionNode => .panicked (.unsupported "Function types not supported in GO")
      | some .tupleNode => .panicked (.unsupported "Warning: Tuple types not supported in GO")
      | some (.recordNode n) => .name ("Write_" ++ n)
      | some .mapNode => .name "Write_Map"
      | some .listNode => .name "Write_List"

/-- One alias/reference resolution step in the pointer graph. -/
def wrapperNext (heap : List TyNode) (addr : Nat) : Option Nat :=
  match heap.get? addr with
  | some (.aliasPtr _ a) => some a
  | some (.referencePtr _ a) => some a
  | _ => none

/-- `k` wrapper steps from `addr`. -/
def iterateNext (heap : List TyNode) : Nat → Nat → Option Nat
  | 0, addr => some addr
  | k + 1, addr => (wrapperNext heap addr).bind (iterateNext heap k)

/-- The chain from `addr` consists of alias/reference wrappers forever —
on a finite heap, exactly the addresses that lead into a wrapper cycle. -/
def onWrapperCycle (heap : List TyNode) (addr : Nat) : Prop :=
  ∀ k, (iterateNext heap (k + 1) addr).isSome

/-- The claim's notion of termination for the resolution performed by
`WriterMethodForType`: some call-stack bound suffices for the recursion
to return. -/
def resolutionTerminates (heap : List TyNode) (addr : Nat) : Prop :=
  ∃ fuel, WriterMethodForTypeG heap fuel addr ≠ .stackOverflow

/-- Concrete cyclic chain: address 0 holds `Alias("A")` of address 1,
which holds `Alias("B")` of address 0. -/
def cycHeap : List TyNode := [.aliasPtr "A" 1, .aliasPtr "B" 0]

/-- The round-trip scenario service type:
`Record("Greeter", SayHello: Function([string], [string]))`. -/
def greeterRecord : Ty :=
  .record "Greeter" [("SayHello", .function [.primitive "string"] [.primitive "string"])]

/-- Registry holding the Greeter service under the empty namespace. -/
def greeterTypeSystem : List ((String × String) × Ty) := [(("", "Greeter"), greeterRecord)]

/-- The `SayHello` operation signature. -/
def sayHelloType : FunctionTypeData :=
  { InputTypes := [.primitive "string"], OutputTypes := [.primitive "string"] }

/-- Generator for the round-trip scenario. -/
def gGreeter : Generator := NewGenerator [] greeterTypeSystem ""

/-- An explicit binding-table entry for `SayHello`. -/
def sayHelloBinding : HttpBinding :=
  { Method := "POST", EndpointTemplate := "/say/hello", Placement := .body }

/-- Generator whose binding table maps `SayHello` to `POST /say/hello`. -/
def gWithBinding : Generator :=
  NewGenerator [("SayHello", sayHelloBinding)] greeterTypeSystem ""

/-- The generator state after `EmitClientClass gGreeter "" "Greeter"`. -/
def gGreeter2 : Generator :=
  { gGreeter with
    ServiceName := "Greeter"
    ServiceType := some { Name := "Greeter"
                          Fields := [("SayHello",
                            Ty.function [.primitive "string"] [.primitive "string"])] } }

/-- The claim-side reading of C6's error contract: the call returns
normally carrying the named error value. -/
def returnsError (r : Except GoPanic (Generator × String × Option GoError)) (e : GoError) : Prop :=
  ∃ g2 out, r = .ok (g2, out, some e)

/-! ## Helper lemmas -/

theorem append_ne_empty_of_right (a b : String) (hb : b ≠ "") : a ++ b ≠ "" := by
  intro h
  apply hb
  have hd : a.data ++ b.data = [] := by
    have h2 := congrArg String.data h
    rwa [String.data_append] at h2
  have hb2 : b.data = [] := (List.append_eq_nil.mp hd).2
  cases b with
  | mk l => cases hb2; rfl

theorem writer_eq_dispatch : ∀ t : Ty, dispatchSpec t (WriterMethodForType t)
  | .primitive n => by simp [dispatchSpec, resolve, WriterMethodForType]
  | .aliasType n u => by
      simpa [dispatchSpec, resolve, WriterMethodForType] using writer_eq_dispatch u
  | .referenceType n u => by
      simpa [dispatchSpec, resolve, WriterMethodForType] using writer_eq_dispatch u
  | .record n fields => by simp [dispatchSpec, resolve, WriterMethodForType]
  | .tuple children => by simp [dispatchSpec, resolve, WriterMethodForType]
  | .map k v => by simp [dispatchSpec, resolve, WriterMethodForType]
  | .list e => by simp [dispatchSpec, resolve, WriterMethodForType]
  | .function ins outs => by simp [dispatchSpec, resolve, WriterMethodForType]

theorem write_prefixed_ne_unknown (n : String) : "Write_" ++ n ≠ "UnknownWriter" := by
  intro h
  have h2 : 'W' :: 'r' :: 'i' :: 't' :: 'e' :: '_' :: n.data
      = 'U' :: 'n' :: 'k' :: 'n' :: 'o' :: 'w' :: 'n' :: 'W' :: 'r' :: 'i' :: 't' :: 'e' :: 'r' :: [] :=
    congrArg String.data h
  injection h2 with h3 _
  exact absurd h3 (by decide)

theorem writer_never_unknown :
    ∀ t : Ty, ∀ s, WriterMethodForType t = .ok s → s ≠ "UnknownWriter"
  | .primitive n => by
      intro s hs
      rw [show WriterMethodForType (.primitive n) = .ok ("Write_" ++ n) from rfl] at hs
      cases hs
      exact write_prefixed_ne_unknown n
  | .aliasType n u => writer_never_unknown u
  | .referenceType n u => writer_never_unknown u
  | .record n fields => by
      intro s hs
      rw [show WriterMethodForType (.record n fields) = .ok ("Write_" ++ n) from rfl] at hs
      cases hs
      exact write_prefixed_ne_unknown n
  | .tuple children => by intro s hs; exact absurd hs (by simp [WriterMethodForType])
  | .function ins outs => by intro s hs; exact absurd hs (by simp [WriterMethodForType])
  | .map k v => by
      intro s hs
      rw [show WriterMethodForType (.map k v) = .ok "Write_Map" from rfl] at hs
      cases hs
      decide
  | .list e => by
      intro s hs
      rw [show WriterMethodForType (.list e) = .ok "Write_List" from rfl] at hs
      cases hs
      decide

theorem arg_toString_zero : ("arg" ++ toString (0 : Nat)) = "arg0" := rfl

theorem emitArgList_ok : ∀ (ts : List Ty) (i : Nat),
    (∀ t ∈ ts, ∃ w, WriterMethodForType t = .ok w) →
    emitArgList ts i = (joinCallsFrom i ts, none)
  | [], _, _ => rfl
  | t :: rest, i, h => by
      obtain ⟨w, hw⟩ := h t (List.mem_cons_self t rest)
      have ih := emitArgList_ok rest (i + 1) (fun u hu => h u (List.mem_cons_of_mem t hu))
      simp [emitArgList, EmitObjectWriterCall, hw, ih, joinCallsFrom, writerCallText,
        Except.map, Except.toOption]

theorem emitSend_factor (g : Generator) (opName : String) (opType : FunctionTypeData)
    (argPrefix : String)
    (h : ∀ t ∈ opType.InputTypes, ∃ w, WriterMethodForType t = .ok w) :
    EmitSendRequestMethod g opName opType argPrefix =
      (methodHeaderText g opName opType ++ specWriterCallSection opType.InputTypes ++
        requestConstructionText "GET" "http://hello.world/", .ok none) := by
  obtain ⟨ins, outs⟩ := opType
  rcases ins with _ | ⟨t0, rest⟩
  · simp [EmitSendRequestMethod, StartWritingMethod, EndWritingMethod, Generator.withOp,
      specWriterCallSection, methodHeaderText, ClientName, String.append_empty]
  · rcases rest with _ | ⟨t1, rest'⟩
    · obtain ⟨w, hw⟩ := h t0 (by simp)
      simp [EmitSendRequestMethod, StartWritingMethod, EndWritingMethod, Generator.withOp,
        EmitObjectWriterCall, hw, specWriterCallSection, writerCallText, methodHeaderText,
        ClientName, Except.map, Except.toOption, arg_toString_zero]
    · have hall := emitArgList_ok (t0 :: t1 :: rest') 0 h
      simp [EmitSendRequestMethod, StartWritingMethod, EndWritingMethod, Generator.withOp,
        hall, specWriterCallSection, methodHeaderText, ClientName, String.append_assoc]

theorem emitSend_ret (g : Generator) (opName : String) (opType : FunctionTypeData)
    (argPrefix : String) :
    (EmitSendRequestMethod g opName opType argPrefix).2 = .ok none ∨
      ∃ p, (EmitSendRequestMethod g opName opType argPrefix).2 = .error p := by
  obtain ⟨ins, outs⟩ := opType
  rcases ins with _ | ⟨t0, rest⟩
  · exact .inl rfl
  · rcases rest with _ | ⟨t1, rest'⟩
    · rcases hw : EmitObjectWriterCall none "arg0" t0 with p | w
      · exact .inr ⟨p, by simp [EmitSendRequestMethod, StartWritingMethod, Generator.withOp, hw]⟩
      · exact .inl (by simp [EmitSendRequestMethod, StartWritingMethod, Generator.withOp, hw])
    · rcases ha : emitArgList (t0 :: t1 :: rest') 0 with ⟨calls, _ | p⟩
      · exact .inl (by simp [EmitSendRequestMethod, StartWritingMethod, Generator.withOp, ha])
      · exact .inr ⟨p, by simp [EmitSendRequestMethod, StartWritingMethod, Generator.withOp, ha]⟩

/-! ## Claims -/

/-- C1: the writer dispatch is total over the variant set with no silent
default.  Every `Ty` either yields the specific writer name of its
resolved primitive/record/map/list variant, or fails with the
unsupported-type panic naming the tuple resp. function kind; no input
ever produces the generic fallback name `"UnknownWriter"`. -/
theorem writer_dispatch_total (t : Ty) :
    dispatchSpec t (WriterMethodForType t) ∧
      ∀ s, WriterMethodForType t = .ok s → s ≠ "UnknownWriter" :=
  ⟨writer_eq_dispatch t, writer_never_unknown t⟩

/-- C8: `WriterMethodForType` is invariant under alias/reference
wrapping, and on resolved variants maps primitives and records to
`"Write_" ++ name`, maps to `"Write_Map"` and lists to `"Write_List"`. -/
theorem writer_resolved_dispatch :
    (∀ (n : String) (t : Ty),
        WriterMethodForType (.aliasType n t) = WriterMethodForType t ∧
        WriterMethodForType (.referenceType n t) = WriterMethodForType t) ∧
    (∀ n : String, WriterMethodForType (.primitive n) = .ok ("Write_" ++ n)) ∧
    (∀ (n : String) (fields : List (String × Ty)),
        WriterMethodForType (.record n fields) = .ok ("Write_" ++ n)) ∧
    (∀ k v : Ty, WriterMethodForType (.map k v) = .ok "Write_Map") ∧
    (∀ e : Ty, WriterMethodForType (.list e) = .ok "Write_List") :=
  ⟨fun _ _ => ⟨rfl, rfl⟩, fun _ => rfl, fun _ _ => rfl, fun _ _ => rfl, fun _ => rfl⟩

theorem append_ne_empty_of_left (a b : String) (ha : a ≠ "") : a ++ b ≠ "" := by
  intro h
  apply ha
  have hd : a.data ++ b.data = [] := by
    have h2 := congrArg String.data h
    rwa [String.data_append] at h2
  have ha2 : a.data = [] := (List.append_eq_nil.mp hd).1
  cases a with
  | mk l => cases ha2; rfl

theorem onWrapperCycle_step (heap : List TyNode) (addr : Nat) (h : onWrapperCycle heap addr) :
    ∃ b, wrapperNext heap addr = some b ∧ onWrapperCycle heap b := by
  have h0 := h 0
  rcases hb : wrapperNext heap addr with _ | b
  · rw [show iterateNext heap 1 addr = (wrapperNext heap addr).bind (iterateNext heap 0) from rfl,
      hb] at h0
    simp [Option.bind] at h0
  · refine ⟨b, rfl, fun k => ?_⟩
    have hk := h (k + 1)
    rw [show iterateNext heap (k + 2) addr
          = (wrapperNext heap addr).bind (iterateNext heap (k + 1)) from rfl, hb] at hk
    simpa [Option.bind] using hk

/-- C2 (amended): `WriterMethodForType` strips alias/reference wrappers by
unguarded recursion (generator.go:160-163); starting from any address
whose wrapper chain never reaches a non-wrapper node — in particular any
address on an alias/reference cycle — the recursion exhausts every
call-stack bound instead of terminating, and no outcome (in particular no
`ResolutionError`, which the code nowhere constructs) is ever produced. -/
theorem cyclic_resolution_diverges (heap : List TyNode) :
    ∀ fuel addr, onWrapperCycle heap addr →
      WriterMethodForTypeG heap fuel addr = .stackOverflow := by
  intro fuel
  induction fuel with
  | zero => intro addr _; rfl
  | succ n ih =>
      intro addr h
      obtain ⟨b, hb, hcyc⟩ := onWrapperCycle_step heap addr h
      unfold wrapperNext at hb
      rcases hget : heap.get? addr with _ | node
      · rw [hget] at hb; simp at hb
      · rw [hget] at hb
        cases node with
        | primitive nm => simp at hb
        | aliasPtr nm a =>
            injection hb with hb2
            have hstep : WriterMethodForTypeG heap (n + 1) addr = WriterMethodForTypeG heap n a := by
              simp only [WriterMethodForTypeG, hget]
            rw [hstep, hb2]
            exact ih b hcyc
        | referencePtr nm a =>
            injection hb with hb2
            have hstep : WriterMethodForTypeG heap (n + 1) addr = WriterMethodForTypeG heap n a := by
              simp only [WriterMethodForTypeG, hget]
            rw [hstep, hb2]
            exact ih b hcyc
        | recordNode nm => simp at hb
        | tupleNode => simp at hb
        | mapNode => simp at hb
        | listNode => simp at hb
        | functionNode => simp at hb

theorem cycHeap_iterate (k : Nat) :
    (iterateNext cycHeap k 0 = some 0 ∨ iterateNext cycHeap k 0 = some 1) ∧
      (iterateNext cycHeap k 1 = some 0 ∨ iterateNext cycHeap k 1 = some 1) := by
  induction k with
  | zero => exact ⟨.inl rfl, .inr rfl⟩
  | succ n ih =>
      constructor
      · rw [show iterateNext cycHeap (n + 1) 0 = iterateNext cycHeap n 1 from rfl]
        exact ih.2
      · rw [show iterateNext cycHeap (n + 1) 1 = iterateNext cycHeap n 0 from rfl]
        exact ih.1

theorem cycHeap_onCycle : onWrapperCycle cycHeap 0 := by
  intro k
  rcases (cycHeap_iterate (k + 1)).1 with h | h <;> simp [h]

theorem cycHeap_stackOverflow (fuel : Nat) :
    WriterMethodForTypeG cycHeap fuel 0 = .stackOverflow ∧
      WriterMethodForTypeG cycHeap fuel 1 = .stackOverflow := by
  induction fuel with
  | zero => exact ⟨rfl, rfl⟩
  | succ n ih =>
      constructor
      · rw [show WriterMethodForTypeG cycHeap (n + 1) 0 = WriterMethodForTypeG cycHeap n 1 from rfl]
        exact ih.2
      · rw [show WriterMethodForTypeG cycHeap (n + 1) 1 = WriterMethodForTypeG cycHeap n 0 from rfl]
        exact ih.1

/-- C2 counterexample: on the concrete two-node alias cycle `cycHeap`
(`A ↦ B ↦ A`), resolution as performed by `WriterMethodForType` does not
terminate for any call-stack bound — so it neither terminates nor fails
with a `ResolutionError`, contrary to the claim. -/
theorem cyclic_resolution_never_terminates_cex : ¬ resolutionTerminates cycHeap 0 := by
  rintro ⟨fuel, hf⟩
  exact hf (cycHeap_stackOverflow fuel).1

/-- Witness for C2 (amended) at the concrete cyclic heap and bound 7. -/
theorem cyclic_resolution_diverges_witness :
    WriterMethodForTypeG cycHeap 7 0 = .stackOverflow :=
  cyclic_resolution_diverges cycHeap 7 0 cycHeap_onCycle

set_option maxRecDepth 8192 in
/-- C3 counterexample: the generator `gWithBinding` carries an explicit
binding-table entry `SayHello ↦ POST /say/hello`, yet the emitted
request construction interpolates the hardcoded `GET` and
`http://hello.world/` (generator.go:98-99) — the table entry's method and
endpoint are nowhere in the output. -/
theorem binding_table_ignored_cex :
    (EmitSendRequestMethod gWithBinding "SayHello" sayHelloType "arg").1 =
        methodHeaderText gWithBinding "SayHello" sayHelloType ++
          writerCallText 0 (.primitive "string") ++
          requestConstructionText "GET" "http://hello.world/" ∧
    (EmitSendRequestMethod gWithBinding "SayHello" sayHelloType "arg").1 ≠
        methodHeaderText gWithBinding "SayHello" sayHelloType ++
          writerCallText 0 (.primitive "string") ++
          requestConstructionText "POST" "/say/hello" := by
  constructor
  · rfl
  · decide

/-- C3 (amended): for every operation whose inputs all have writers, the
emitted method ends with the request construction interpolating the
hardcoded default method `GET` and placeholder endpoint
`http://hello.world/` — regardless of the binding table — and emission
returns normally (nil error, no abort). -/
theorem emit_uses_hardcoded_binding (g : Generator) (opName : String)
    (opType : FunctionTypeData) (argPrefix : String)
    (h : ∀ t ∈ opType.InputTypes, ∃ w, WriterMethodForType t = .ok w) :
    (EmitSendRequestMethod g opName opType argPrefix).2 = .ok none ∧
    (EmitSendRequestMethod g opName opType argPrefix).1 =
      methodHeaderText g opName opType ++ specWriterCallSection opType.InputTypes ++
        requestConstructionText "GET" "http://hello.world/" := by
  rw [emitSend_factor g opName opType argPrefix h]
  exact ⟨rfl, rfl⟩

/-- Witness for C3 (amended) at the concrete bound generator. -/
theorem emit_uses_hardcoded_binding_witness :
    (EmitSendRequestMethod gWithBinding "CreateTeam" sayHelloType "arg").2 = .ok none ∧
    (EmitSendRequestMethod gWithBinding "CreateTeam" sayHelloType "arg").1 =
      methodHeaderText gWithBinding "CreateTeam" sayHelloType ++
        specWriterCallSection sayHelloType.InputTypes ++
        requestConstructionText "GET" "http://hello.world/" :=
  emit_uses_hardcoded_binding gWithBinding "CreateTeam" sayHelloType "arg"
    (by
      intro t ht
      simp [sayHelloType] at ht
      subst ht
      exact ⟨"Write_string", rfl⟩)

/-- C4 counterexample: for an operation with a single tuple input, the
panic does carry the tuple-unsupported message, but the output stream is
not empty — the method header was already written, so a syntactically
incomplete method text is emitted. -/
theorem tuple_partial_output_cex :
    (EmitSendRequestMethod (NewGenerator [] [] "") "Op"
        { InputTypes := [.tuple []], OutputTypes := [] } "arg").2 =
      .error (.unsupported "Warning: Tuple types not supported in GO") ∧
    (EmitSendRequestMethod (NewGenerator [] [] "") "Op"
        { InputTypes := [.tuple []], OutputTypes := [] } "arg").1 ≠ "" := by
  exact ⟨rfl, by decide⟩

/-- C4 (amended): when the first input type is a tuple, emission panics
with the tuple-unsupported error, but only after the method header (and,
for several inputs, the opening bracket) has been written: the failure is
not atomic and the output holds a nonempty, unterminated method prefix. -/
theorem tuple_input_panics_after_header (g : Generator) (opName : String)
    (elems rest outs : List Ty) (argPrefix : String) :
    ∃ written,
      EmitSendRequestMethod g opName
          { InputTypes := .tuple elems :: rest, OutputTypes := outs } argPrefix =
        (written, .error (.unsupported "Warning: Tuple types not supported in GO")) ∧
      written ≠ "" := by
  rcases rest with _ | ⟨t1, rest'⟩
  · refine ⟨methodHeaderText g opName { InputTypes := [.tuple elems], OutputTypes := outs },
      rfl, ?_⟩
    unfold methodHeaderText
    apply append_ne_empty_of_right
    decide
  · refine ⟨methodHeaderText g opName
        { InputTypes := .tuple elems :: t1 :: rest', OutputTypes := outs } ++
        StartWritingList ++ "", rfl, ?_⟩
    rw [String.append_empty]
    apply append_ne_empty_of_right
    decide

/-- C5: emission branches on the declared input count — the emitted text
is the method header, then the writer-call section (empty for zero
inputs; exactly one call `WriterNameFor(t0)(body, arg0)` for one input;
for several inputs one call per input type in declared order, delimited
by `[` and `]`), then the request construction. -/
theorem emit_argument_count_branching (g : Generator) (opName : String)
    (opType : FunctionTypeData) (argPrefix : String)
    (h : ∀ t ∈ opType.InputTypes, ∃ w, WriterMethodForType t = .ok w) :
    (EmitSendRequestMethod g opName opType argPrefix).1 =
      methodHeaderText g opName opType ++ specWriterCallSection opType.InputTypes ++
        requestConstructionText "GET" "http://hello.world/" ∧
    specWriterCallSection [] = "" ∧
    (∀ t0, specWriterCallSection [t0] = writerCallText 0 t0) ∧
    (∀ t0 t1 ts, specWriterCallSection (t0 :: t1 :: ts) =
        StartWritingList ++ joinCallsFrom 0 (t0 :: t1 :: ts) ++ EndWritingList) := by
  refine ⟨?_, rfl, fun t0 => rfl, fun t0 t1 ts => rfl⟩
  rw [emitSend_factor g opName opType argPrefix h]

/-- Witness for C5 at a concrete two-input operation. -/
theorem emit_argument_count_branching_witness :
    (EmitSendRequestMethod (NewGenerator [] [] "") "Op"
        { InputTypes := [.primitive "a", .primitive "b"], OutputTypes := [] } "arg").1 =
      methodHeaderText (NewGenerator [] [] "") "Op"
          { InputTypes := [.primitive "a", .primitive "b"], OutputTypes := [] } ++
        specWriterCallSection [.primitive "a", .primitive "b"] ++
        requestConstructionText "GET" "http://hello.world/" :=
  (emit_argument_count_branching (NewGenerator [] [] "") "Op"
      { InputTypes := [.primitive "a", .primitive "b"], OutputTypes := [] } "arg"
      (by
        intro t ht
        simp at ht
        rcases ht with rfl | rfl
        · exact ⟨"Write_a", rfl⟩
        · exact ⟨"Write_b", rfl⟩)).1

/-- C10: whenever `EmitSendRequestMethod` returns (rather than
panicking), the returned error value is nil — the source ends in
`return nil` (generator.go:113) and every failure path is a panic. -/
theorem emit_send_returned_error_nil (g : Generator) (opName : String)
    (opType : FunctionTypeData) (argPrefix : String) (e : Option GoError)
    (h : (EmitSendRequestMethod g opName opType argPrefix).2 = .ok e) : e = none := by
  rcases emitSend_ret g opName opType argPrefix with h1 | ⟨p, h1⟩
  · rw [h1] at h
    injection h with h2
    exact h2.symm
  · rw [h1] at h
    cases h

/-- Witness for C10 at a concrete zero-input operation. -/
theorem emit_send_returned_error_nil_witness :
    ∃ e, (EmitSendRequestMethod (NewGenerator [] [] "") "Op"
        { InputTypes := [], OutputTypes := [] } "arg").2 = .ok e ∧ e = none :=
  ⟨none, rfl,
    emit_send_returned_error_nil (NewGenerator [] [] "") "Op"
      { InputTypes := [], OutputTypes := [] } "arg" none rfl⟩

/-- C6 counterexample: `EmitClientClass` performs an unchecked lookup and
type assertion (generator.go:75).  On an unregistered name it panics with
a nil dereference instead of returning `UnknownTypeError`; on a
registered non-record it panics with a failed interface conversion
instead of returning `NotARecordError`. -/
theorem emit_client_class_no_error_values_cex :
    EmitClientClass (NewGenerator [] [] "") "" "Greeter" = .error .nilDeref ∧
    ¬ returnsError (EmitClientClass (NewGenerator [] [] "") "" "Greeter") .unknownType ∧
    EmitClientClass (NewGenerator [] [(("", "Greeter"), .primitive "int")] "") "" "Greeter" =
      .error .interfaceConversion ∧
    ¬ returnsError
        (EmitClientClass (NewGenerator [] [(("", "Greeter"), .primitive "int")] "") "" "Greeter")
        .notARecord := by
  refine ⟨rfl, ?_, rfl, ?_⟩
  · rintro ⟨g2, out, hcontra⟩
    rw [show EmitClientClass (NewGenerator [] [] "") "" "Greeter" = .error .nilDeref
        from rfl] at hcontra
    cases hcontra
  · rintro ⟨g2, out, hcontra⟩
    rw [show EmitClientClass (NewGenerator [] [(("", "Greeter"), .primitive "int")] "")
          "" "Greeter" = .error .interfaceConversion from rfl] at hcontra
    cases hcontra

/-- C6 (amended): `EmitClientClass` panics (nil dereference) when the
name is not registered, panics (failed interface type assertion) when the
registered type is not a record, and for a registered record renders the
class header and returns the nil error. -/
theorem emit_client_class_behavior (g : Generator) (pkgName serviceName : String) :
    (GetType g.TypeSystem pkgName serviceName = none →
        EmitClientClass g pkgName serviceName = .error .nilDeref) ∧
    (∀ t, GetType g.TypeSystem pkgName serviceName = some t →
        (∀ n fields, t ≠ .record n fields) →
        EmitClientClass g pkgName serviceName = .error .interfaceConversion) ∧
    (∀ n fields, GetType g.TypeSystem pkgName serviceName = some (.record n fields) →
        ∃ g2, EmitClientClass g pkgName serviceName = .ok (g2, clientGenRender g2, none) ∧
          g2.ServiceName = serviceName ∧
          g2.ServiceType = some { Name := n, Fields := fields }) := by
  refine ⟨?_, ?_, ?_⟩
  · intro h
    simp only [EmitClientClass]
    rw [h]
  · intro t ht hnr
    simp only [EmitClientClass]
    rw [ht]
    cases t with
    | record n fields => exact absurd rfl (hnr n fields)
    | primitive n => rfl
    | aliasType n u => rfl
    | referenceType n u => rfl
    | tuple c => rfl
    | map k v => rfl
    | list e => rfl
    | function i o => rfl
  · intro n fields hr
    simp only [EmitClientClass]
    rw [hr]
    exact ⟨_, rfl, rfl, rfl⟩

/-- Witness for C6 (amended) at the registered Greeter record. -/
theorem emit_client_class_behavior_witness :
    ∃ g2, EmitClientClass gGreeter "" "Greeter" = .ok (g2, clientGenRender g2, none) ∧
      g2.ServiceName = "Greeter" ∧
      g2.ServiceType = some { Name := "Greeter"
                              Fields := [("SayHello",
                                Ty.function [.primitive "string"] [.primitive "string"])] } :=
  (emit_client_class_behavior gGreeter "" "Greeter").2.2 "Greeter"
    [("SayHello", Ty.function [.primitive "string"] [.primitive "string"])] rfl

theorem argListFrom_shift : ∀ (ts : List Ty) (i : Nat) (w : Bool),
    argListFrom ts (i + 1) w =
      (match ts with
       | [] => ""
       | _ => ", " ++ commaJoinedFrom w (i + 1) ts)
  | [], _, _ => rfl
  | [t], i, w => by
      simp [argListFrom, commaJoinedFrom, argEntry, String.append_empty, String.append_assoc]
  | t :: t' :: rest, i, w => by
      have ih : argListFrom (t' :: rest) (i + 2) w
          = ", " ++ commaJoinedFrom w (i + 2) (t' :: rest) :=
        argListFrom_shift (t' :: rest) (i + 1) w
      show argListFrom (t :: t' :: rest) (i + 1) w
          = ", " ++ commaJoinedFrom w (i + 1) (t :: t' :: rest)
      have hL : argListFrom (t :: t' :: rest) (i + 1) w
          = (((if i + 1 > 0 then ", " else "") ++
              (if w then "arg" ++ toString (i + 1) ++ " " else "")) ++ Signature t) ++
            argListFrom (t' :: rest) (i + 2) w := rfl
      have hR : commaJoinedFrom w (i + 1) (t :: t' :: rest)
          = (((if w then "arg" ++ toString (i + 1) ++ " " else "") ++ Signature t) ++ ", ") ++
            commaJoinedFrom w (i + 2) (t' :: rest) := rfl
      rw [hL, ih, hR, if_pos (Nat.succ_pos i)]
      simp [String.append_assoc]

/-- C9: the default `ArgListMaker` renders the comma-joined entries in
declared order — `argN ` followed by the type signature when `withNames`
holds, just the signature otherwise — and the empty sequence renders the
empty string. -/
theorem arg_list_maker_renders (paramTypes : List Ty) (withNames : Bool) :
    ArgListMaker paramTypes withNames = commaJoinedFrom withNames 0 paramTypes ∧
    ArgListMaker [] withNames = "" ∧
    (∀ t, argEntry true 0 t = "arg0 " ++ Signature t) ∧
    (∀ t, argEntry false 0 t = Signature t) := by
  refine ⟨?_, rfl, fun t => rfl, fun t => by simp [argEntry, String.empty_append]⟩
  rcases paramTypes with _ | ⟨t, rest⟩
  · rfl
  · have h := argListFrom_shift rest 0 withNames
    show argListFrom (t :: rest) 0 withNames = commaJoinedFrom withNames 0 (t :: rest)
    rcases rest with _ | ⟨t', rest'⟩
    · simp [argListFrom, commaJoinedFrom, argEntry, String.append_empty]
    · have ih : argListFrom (t' :: rest') 1 withNames
          = ", " ++ commaJoinedFrom withNames 1 (t' :: rest') := h
      have hL : argListFrom (t :: t' :: rest') 0 withNames
          = (((if (0 : Nat) > 0 then ", " else "") ++
              (if withNames then "arg" ++ toString (0 : Nat) ++ " " else "")) ++ Signature t) ++
            argListFrom (t' :: rest') 1 withNames := rfl
      have hR : commaJoinedFrom withNames 0 (t :: t' :: rest')
          = (((if withNames then "arg" ++ toString (0 : Nat) ++ " " else "") ++ Signature t) ++
              ", ") ++ commaJoinedFrom withNames 1 (t' :: rest') := rfl
      rw [hL, ih, hR]
      simp [String.append_assoc]

theorem emitSend_starts_with_header (g : Generator) (opName : String)
    (opType : FunctionTypeData) (argPrefix : String) :
    ∃ tail, (EmitSendRequestMethod g opName opType argPrefix).1 =
      methodHeaderText g opName opType ++ tail := by
  obtain ⟨ins, outs⟩ := opType
  rcases ins with _ | ⟨t0, rest⟩
  · exact ⟨requestConstructionText "GET" "http://hello.world/", rfl⟩
  · rcases rest with _ | ⟨t1, rest'⟩
    · rcases hw : EmitObjectWriterCall none "arg0" t0 with p | w
      · refine ⟨"", ?_⟩
        have hv : EmitSendRequestMethod g opName ⟨[t0], outs⟩ argPrefix
            = (methodHeaderText g opName ⟨[t0], outs⟩, .error p) := by
          simp [EmitSendRequestMethod, StartWritingMethod, Generator.withOp, hw,
            methodHeaderText, ClientName]
        rw [hv, String.append_empty]
      · refine ⟨w ++ requestConstructionText "GET" "http://hello.world/", ?_⟩
        have hv : EmitSendRequestMethod g opName ⟨[t0], outs⟩ argPrefix
            = (methodHeaderText g opName ⟨[t0], outs⟩ ++ w ++
                requestConstructionText "GET" "http://hello.world/", .ok none) := by
          simp [EmitSendRequestMethod, StartWritingMethod, EndWritingMethod, Generator.withOp,
            hw, methodHeaderText, ClientName, String.append_assoc]
        rw [hv]
        simp [String.append_assoc]
    · rcases ha : emitArgList (t0 :: t1 :: rest') 0 with ⟨calls, res⟩
      rcases res with _ | p
      · refine ⟨StartWritingList ++ calls ++ EndWritingList ++
            requestConstructionText "GET" "http://hello.world/", ?_⟩
        have hv : EmitSendRequestMethod g opName ⟨t0 :: t1 :: rest', outs⟩ argPrefix
            = (methodHeaderText g opName ⟨t0 :: t1 :: rest', outs⟩ ++ StartWritingList ++
                calls ++ EndWritingList ++
                requestConstructionText "GET" "http://hello.world/", .ok none) := by
          simp [EmitSendRequestMethod, StartWritingMethod, EndWritingMethod, Generator.withOp,
            ha, methodHeaderText, ClientName, String.append_assoc]
        rw [hv]
        simp [String.append_assoc]
      · refine ⟨StartWritingList ++ calls, ?_⟩
        have hv : EmitSendRequestMethod g opName ⟨t0 :: t1 :: rest', outs⟩ argPrefix
            = (methodHeaderText g opName ⟨t0 :: t1 :: rest', outs⟩ ++ StartWritingList ++ calls,
                .error p) := by
          simp [EmitSendRequestMethod, StartWritingMethod, Generator.withOp, ha,
            methodHeaderText, ClientName, String.append_assoc]
        rw [hv]
        simp [String.append_assoc]

set_option maxRecDepth 100000 in
/-- C7: every emitted method is named `Send` + operation name + `Request`
(first conjunct, for every generator and operation); and in the
round-trip Greeter scenario, `EmitClientClass` succeeds and emitting
`SayHello` produces a method `SendSayHelloRequest` taking exactly the one
parameter `arg0 string` whose body contains exactly one `Write_string`
call. -/
theorem round_trip_scenario :
    (∀ (g : Generator) (opName : String) (opType : FunctionTypeData) (argPrefix : String),
        ∃ rest, (EmitSendRequestMethod g opName opType argPrefix).1 =
          "\nfunc (svc *" ++ ClientName g ++ ") Send" ++ opName ++ "Request(" ++ rest) ∧
    (∃ g2, EmitClientClass gGreeter "" "Greeter" = .ok (g2, clientGenRender g2, none) ∧
      countSubstr "SendSayHelloRequest(arg0 string)"
          (EmitSendRequestMethod g2 "SayHello" sayHelloType "arg").1 = 1 ∧
      countSubstr "Write_string"
          (EmitSendRequestMethod g2 "SayHello" sayHelloType "arg").1 = 1) := by
  constructor
  · intro g opName opType argPrefix
    obtain ⟨tail, ht⟩ := emitSend_starts_with_header g opName opType argPrefix
    refine ⟨g.ArgListMaker opType.InputTypes true ++
      (") (resp *http.Response, error) \x7b\n\tbody := bytes.NewBuffer(nil)\n\t" ++ tail), ?_⟩
    rw [ht]
    simp [methodHeaderText, String.append_assoc]
  · refine ⟨gGreeter2, rfl, ?_, ?_⟩ <;> decide
